import Mathlib

/-!
Verification of the natural-language specification of `django_s3_storage`
against a shallow embedding of `src/django_s3_storage/storage.py`.

Python strings are modelled as lists of characters (`Str`), byte payloads as
lists of naturals, and the boto3 S3 client as a record of fallible operations
(`Conn`).  The client itself is an external collaborator (spec section 1), so
its behaviour is a parameter; `bucketConn` instantiates it with an honest
in-memory bucket following the backend contract of spec section 6.
-/

deriving instance DecidableEq for Except

/-- Python `str`, modelled as a list of characters. -/
abbrev Str := List Char

/-- Python `str.startswith` (spec: prefix test used by the key mapper). -/
def pyStartswith (s pre : Str) : Bool := decide (pre <+: s)

/-- Python `str.endswith` (used by `S3Storage.exists`, storage.py line 174). -/
def pyEndswith (s suf : Str) : Bool := decide (suf <:+ s)

/-- The path separator `"/"`. -/
def slash : Str := ['/']

/-- The one supported open mode, `"rb"` (storage.py line 123). -/
def rbMode : Str := ['r', 'b']

/-- The single-quote character, written by code point to keep sources plain. -/
def squote : Char := Char.ofNat 39

/-- The double-quote character, written by code point. -/
def dquote : Char := Char.ofNat 34

/-- A `botocore.exceptions.ClientError` raised by the boto3 client: an error
code (for example `404` or `403`) and the rendered message that Python's
`force_text(ex)` produces for the exception. -/
structure ClientError where
  code : Str
  msg : Str
deriving Repr, DecidableEq

/-- The exception kinds an adapter operation can surface: `s3Error` is the
`S3Error` produced by `_wrap_errors` (storage.py lines 26-43), `valueError`
is the `ValueError` raised by `_open` for non-`rb` modes (line 124), and
`clientError` is a raw boto3 `ClientError` escaping an operation that is not
decorated with `_wrap_errors`. -/
inductive PyErr where
  | s3Error (msg : Str)
  | valueError (msg : Str)
  | clientError (e : ClientError)
deriving Repr, DecidableEq

/-- One hexadecimal digit, lower case, as used by Python string escapes. -/
def hexDigit (n : Nat) : Char :=
  if n < 10 then Char.ofNat (48 + n) else Char.ofNat (87 + n)

/-- How Python's `repr` escapes one character of a `str`, given the quote
character `q` chosen for the literal: backslash and `q` are backslash-escaped,
newline, carriage return and tab use their named escapes, other control
characters use `\xhh`, everything else is kept as-is. -/
def pyReprEscape (q : Char) (c : Char) : Str :=
  if c = '\\' then ['\\', '\\']
  else if c = q then ['\\', q]
  else if c = Char.ofNat 10 then ['\\', 'n']
  else if c = Char.ofNat 13 then ['\\', 'r']
  else if c = Char.ofNat 9 then ['\\', 't']
  else if c.toNat < 32 || c.toNat = 127 then
    ['\\', 'x', hexDigit (c.toNat / 16), hexDigit (c.toNat % 16)]
  else [c]

/-- The quote character Python's `repr` picks for a `str`: single quotes,
unless the string contains a single quote and no double quote. -/
def pyReprQuote (s : Str) : Char :=
  if s.contains squote && !s.contains dquote then dquote else squote

/-- Python's `repr` of a `str`, as produced by the `{!r}` format spec in
`_wrap_errors` (storage.py line 42). -/
def pyRepr (s : Str) : Str :=
  let q := pyReprQuote s
  q :: (s.flatMap (pyReprEscape q)) ++ [q]

/-- `force_text(ex)` for a `ClientError`: the exception's rendered message. -/
def forceText (e : ClientError) : Str := e.msg

/-- The message of the `S3Error` built by `_wrap_errors` (storage.py line 42):
`"S3Storage error at {!r}: {}".format(name, force_text(ex))`. -/
def wrapMsg (name : Str) (e : ClientError) : Str :=
  ("S3Storage error at ".data) ++ pyRepr name ++ (": ".data) ++ forceText e

/-- The `_wrap_errors` decorator (storage.py lines 36-43): a `ClientError`
escaping the wrapped operation is re-raised as `S3Error` with `wrapMsg`;
every other outcome (success, `ValueError`, an already-wrapped `S3Error`)
passes through unchanged. -/
def wrapErrors (name : Str) (r : Except PyErr α) : Except PyErr α :=
  match r with
  | Except.error (PyErr.clientError e) => Except.error (PyErr.s3Error (wrapMsg name e))
  | other => other

/-- Lift the boto3 client's own error type into the adapter's error type. -/
def liftClient (r : Except ClientError α) : Except PyErr α :=
  match r with
  | Except.ok a => Except.ok a
  | Except.error e => Except.error (PyErr.clientError e)

/-- Metadata returned by `head_object`: `ContentLength` and `LastModified`.
The timestamp is a UTC-aware instant, counted in minutes since the epoch. -/
structure MetaData where
  contentLength : Nat
  lastModified : Int
deriving Repr, DecidableEq

/-- One page yielded by the `list_objects` paginator: the keys of the
`Contents` entries and the prefixes of the `CommonPrefixes` entries
(absent dictionary keys are modelled by empty lists, matching the
`page.get(..., ())` defaults at storage.py lines 203-205). -/
structure Page where
  contents : List Str
  commonPrefixes : List Str
deriving Repr, DecidableEq

/-- The response of an unpaginated `list_objects` call as used by
`S3Storage.exists` (storage.py lines 177-180): the `Contents` entry is
present (`some keys`) or absent (`none`); the code only tests presence. -/
structure ListObjectsResult where
  contents : Option (List Str)
deriving Repr, DecidableEq

/-- The boto3 S3 client (spec section 6), parametrised by the backend state
type.  Mutating calls return the new backend state.  Every operation can fail
with a `ClientError`.  The bucket argument is fixed by configuration in the
source (`settings.AWS_S3_BUCKET_NAME`), so it is left implicit here. -/
structure Conn (σ : Type) where
  get_object : σ → Str → Except ClientError (List Nat)
  put_object : σ → Str → List Nat → Str → Except ClientError σ
  head_object : σ → Str → Except ClientError MetaData
  delete_object : σ → Str → Except ClientError σ
  list_objects : σ → Except ClientError ListObjectsResult
  list_objects_pages : σ → Str → Except ClientError (List Page)

/-- UTF-8 encoding of a Python string, as performed by `force_bytes` on the
text chunks in `_save` (storage.py line 146). -/
def encodeUtf8 (s : Str) : List Nat :=
  s.flatMap (fun c => (String.utf8EncodeChar c).map (fun b => b.toNat))

/-- The content handed to `save`: either a binary stream (its bytes) or a
text stream backed by a `TextIOBase` file (its characters).  The stream is
taken from position 0, reflecting the `content.seek(0)` at storage.py
line 140. -/
inductive FileContent where
  | binary (bs : List Nat)
  | text (t : Str)
deriving Repr, DecidableEq

/-- The suffix of `s` after the last occurrence of `sep` (the whole string
when `sep` does not occur). -/
def afterLast (sep : Char) (s : Str) : Str :=
  s.foldl (fun acc c => if c = sep then [] else acc ++ [c]) []

/-- Modelled from the spec: the Python stdlib `mimetypes` table (an external
dependency not under src/), restricted to a few common extensions; per spec
section 4.3 the type is derived from the file name's extension and unknown
extensions fall back to the generic octet-stream type in the caller. -/
def mimeForExt (e : Str) : Option Str :=
  if e = "json".data then some "application/json".data
  else if e = "txt".data then some "text/plain".data
  else if e = "html".data then some "text/html".data
  else if e = "png".data then some "image/png".data
  else if e = "jpg".data then some "image/jpeg".data
  else if e = "gif".data then some "image/gif".data
  else if e = "pdf".data then some "application/pdf".data
  else if e = "xml".data then some "application/xml".data
  else none

/-- `mimetypes.guess_type(name, strict=False)` followed by the
`content_type or "application/octet-stream"` fallback (storage.py lines
150-151): the extension is what follows the last dot of the last path
segment; a segment without a dot has no guessed type. -/
def guessContentType (name : Str) : Str :=
  let base := afterLast '/' name
  let guessed := if base.contains '.' then mimeForExt (afterLast '.' base) else none
  match guessed with
  | some ct => ct
  | none => "application/octet-stream".data

/-- The outcome of `_save`, together with the temporary-buffer bookkeeping
needed to observe the close loop at storage.py lines 156-158:
`tempsCreated` counts the spooled buffers appended to `temp_files` (0 or 1),
and `tempsLeftOpen` counts those still open when `_save` returns or raises. -/
structure SaveResult (σ : Type) where
  result : Except PyErr (σ × Str)
  tempsCreated : Nat
  tempsLeftOpen : Nat

/-- `S3Storage._get_key_name` (storage.py lines 109-112): drop one leading
separator when present. -/
def S3Storage.getKeyName (name : Str) : Str :=
  if pyStartswith name slash then name.drop 1 else name

/-- `S3Storage.meta` (storage.py lines 164-167): a `head_object` call
decorated with `_wrap_errors`. -/
def S3Storage.meta (c : Conn σ) (s : σ) (name : Str) : Except PyErr MetaData :=
  wrapErrors name (liftClient (c.head_object s (S3Storage.getKeyName name)))

/-- `S3Storage._open` (storage.py lines 121-132), decorated with
`_wrap_errors`.  A mode other than `"rb"` raises `ValueError` before any
backend call; otherwise the object body is copied into a spooled temporary
file, rewound, and returned (the returned `S3File` hands those bytes to the
caller, so the result is modelled as the bytes the handle yields). -/
def S3Storage._open (c : Conn σ) (s : σ) (name : Str) (mode : Str) : Except PyErr (List Nat) :=
  wrapErrors name
    (if mode ≠ rbMode then
      Except.error (PyErr.valueError "S3 files can only be opened in read-only mode".data)
    else
      liftClient (c.get_object s (S3Storage.getKeyName name)))

/-- `S3Storage._save` (storage.py lines 134-160), decorated with
`_wrap_errors`.  Textual content is drained through `force_bytes` into one
spooled temporary file appended to `temp_files`; the body handed to
`put_object` is `content.read()`; the loop closing `temp_files` runs only
after `put_object` returns, so a `ClientError` from the upload leaves every
created temporary file open while the decorator re-raises it as `S3Error`. -/
def S3Storage._save (c : Conn σ) (s : σ) (name : Str) (content : FileContent) :
    SaveResult σ :=
  let bodyTemps : List Nat × Nat :=
    match content with
    | FileContent.binary bs => (bs, 0)
    | FileContent.text t => (encodeUtf8 t, 1)
  let content_type := guessContentType name
  match c.put_object s (S3Storage.getKeyName name) bodyTemps.1 content_type with
  | Except.ok s2 =>
      { result := Except.ok (s2, name), tempsCreated := bodyTemps.2, tempsLeftOpen := 0 }
  | Except.error e =>
      { result := Except.error (PyErr.s3Error (wrapMsg name e)),
        tempsCreated := bodyTemps.2, tempsLeftOpen := bodyTemps.2 }

/-- `S3Storage.delete` (storage.py lines 169-171): a `delete_object` call
decorated with `_wrap_errors`. -/
def S3Storage.delete (c : Conn σ) (s : σ) (name : Str) : Except PyErr σ :=
  wrapErrors name (liftClient (c.delete_object s (S3Storage.getKeyName name)))

/-- `S3Storage.exists` (storage.py lines 173-188), not decorated with
`_wrap_errors`.  A separator-terminated name triggers an unscoped
`list_objects` call (no `Prefix` argument, lines 177-179) whose `Contents`
presence is the answer, and whose `ClientError` would escape raw; any other
name tries `meta`, catches every `S3Error` by recursing with the separator
appended, and returns `True` on success. -/
def S3Storage.exists (c : Conn σ) (s : σ) (name : Str) : Except PyErr Bool :=
  if pyEndswith name slash then
    match c.list_objects s with
    | Except.ok results => Except.ok results.contents.isSome
    | Except.error e => Except.error (PyErr.clientError e)
  else
    match S3Storage.meta c s name with
    | Except.ok _ => Except.ok true
    | Except.error (PyErr.s3Error _) => S3Storage.exists c s (name ++ slash)
    | Except.error e => Except.error e
termination_by (if pyEndswith name slash then 1 else 2)
decreasing_by
  have hs : pyEndswith (name ++ slash) slash = true := by
    simp only [pyEndswith, decide_eq_true_eq]
    exact ⟨name, rfl⟩
  simp_all

/-- A fuel-indexed unrolling of `S3Storage.exists`, used to measure the
depth of its self-recursion: `none` means the fuel ran out before the call
returned. -/
def existsFuel (c : Conn σ) (s : σ) : Nat → Str → Option (Except PyErr Bool)
  | 0, _ => none
  | fuel + 1, name =>
    if pyEndswith name slash then
      match c.list_objects s with
      | Except.ok results => some (Except.ok results.contents.isSome)
      | Except.error e => some (Except.error (PyErr.clientError e))
    else
      match S3Storage.meta c s name with
      | Except.ok _ => some (Except.ok true)
      | Except.error (PyErr.s3Error _) => existsFuel c s fuel (name ++ slash)
      | Except.error e => some (Except.error e)

/-- Split a string at each separator occurrence (`"a/b".split(sep)`
semantics: `n` separators yield `n + 1` pieces, possibly empty). -/
def splitSlash : Str → List Str
  | [] => [[]]
  | c :: rest =>
    if c = '/' then [] :: splitSlash rest
    else
      match splitSlash rest with
      | [] => [[c]]
      | h :: t => (c :: h) :: t

/-- The non-empty components of a path, as `posixpath.relpath` computes them:
`[x for x in p.split(sep) if x]`. -/
def pathComponents (p : Str) : List Str :=
  (splitSlash p).filter (fun x => x ≠ [])

/-- The length of the longest common prefix of two component lists
(`posixpath.commonprefix` on the two filtered lists). -/
def commonLen : List Str → List Str → Nat
  | a :: as, b :: bs => if a = b then commonLen as bs + 1 else 0
  | _, _ => 0

/-- Join path components with the separator (`posixpath.join`). -/
def joinSlash : List Str → Str
  | [] => []
  | [p] => p
  | p :: ps => p ++ '/' :: joinSlash ps

/-- `posixpath.relpath(path, start)` for the bucket-relative arguments
`listdir` passes it (storage.py lines 204 and 206).  Both arguments are
relative and free of `.`/`..` components, so the current-directory
components `abspath` prepends to each side fall inside the common prefix
and cancel; what remains is the computation below on the two component
lists. -/
def relpath (path start : Str) : Str :=
  let startList := pathComponents start
  let pathList := pathComponents path
  let i := commonLen startList pathList
  let relList := List.replicate (startList.length - i) "..".data ++ pathList.drop i
  if relList = [] then ".".data else joinSlash relList

/-- `S3Storage.listdir` (storage.py lines 190-208), not decorated with
`_wrap_errors`.  The path is key-mapped, `.` becomes the bucket root and any
other path gets a trailing separator; the paginated `list_objects` call is
scoped to that prefix with delimiter `/`; `Contents` keys become files and
`CommonPrefixes` prefixes become directories, each relativized against the
prefix; the result is the pair `(dirs, files)`. -/
def S3Storage.listdir (c : Conn σ) (s : σ) (path : Str) :
    Except PyErr (List Str × List Str) :=
  let key := S3Storage.getKeyName path
  let pre := if key = ".".data then [] else key ++ slash
  match c.list_objects_pages s pre with
  | Except.error e => Except.error (PyErr.clientError e)
  | Except.ok pages =>
    let files := (pages.flatMap (fun page => page.contents)).map (fun k => relpath k pre)
    let dirs :=
      (pages.flatMap (fun page => page.commonPrefixes)).map (fun p => relpath p pre)
    Except.ok (dirs, files)

/-- `S3Storage.size` (storage.py lines 210-211): the `ContentLength` field of
`meta`. -/
def S3Storage.size (c : Conn σ) (s : σ) (name : Str) : Except PyErr Nat :=
  match S3Storage.meta c s name with
  | Except.ok m => Except.ok m.contentLength
  | Except.error e => Except.error e

/-- A Python `datetime`: either timezone-aware (a UTC instant) or naive (a
wall-clock reading with no timezone attached).  Times are counted in minutes
since the epoch. -/
inductive PyDatetime where
  | aware (instant : Int)
  | naive (wall : Int)
deriving Repr, DecidableEq

/-- `django.utils.timezone.make_naive(value, tz)`: the wall-clock reading of
the aware instant in a timezone whose UTC offset is `tzOffset` minutes. -/
def make_naive (tzOffset : Int) (instant : Int) : Int := instant + tzOffset

/-- The two configuration values the timestamp accessors read:
`settings.USE_TZ` and the UTC offset of the current default timezone
(`settings.TIME_ZONE`), which `make_naive` falls back to when called with no
timezone argument. -/
structure TzSettings where
  USE_TZ : Bool
  currentTzOffset : Int
deriving Repr, DecidableEq

/-- `S3Storage.modified_time` (storage.py lines 216-217), also aliased to
`created_time` and `accessed_time`: `make_naive(meta(name)["LastModified"], utc)`,
always a naive UTC reading. -/
def S3Storage.modified_time (c : Conn σ) (s : σ) (name : Str) : Except PyErr PyDatetime :=
  match S3Storage.meta c s name with
  | Except.ok m => Except.ok (PyDatetime.naive (make_naive 0 m.lastModified))
  | Except.error e => Except.error e

/-- `S3Storage.get_modified_time` (storage.py lines 221-223), also aliased to
`get_created_time` and `get_accessed_time`: the aware timestamp unchanged
when `settings.USE_TZ` holds, otherwise `make_naive(timestamp)` with the
defaulted current timezone. -/
def S3Storage.get_modified_time (c : Conn σ) (s : σ) (st : TzSettings) (name : Str) :
    Except PyErr PyDatetime :=
  match S3Storage.meta c s name with
  | Except.ok m =>
      Except.ok
        (if st.USE_TZ then PyDatetime.aware m.lastModified
         else PyDatetime.naive (make_naive st.currentTzOffset m.lastModified))
  | Except.error e => Except.error e

/-- An object stored in the bucket: its body bytes and its last-modified
instant (UTC minutes). -/
structure StoredObject where
  body : List Nat
  lastModified : Int
deriving Repr, DecidableEq

/-- The backend state: the bucket's key-to-object association, first match
wins. -/
abbrev Bucket := List (Str × StoredObject)

/-- Look a key up in the bucket. -/
def lookupKey : Bucket → Str → Option StoredObject
  | [], _ => none
  | (k, o) :: rest, key => if k = key then some o else lookupKey rest key

/-- Take characters of a key-remainder up to and including the first
delimiter, as S3 forms a `CommonPrefixes` entry. -/
def upToSlash : Str → Str
  | [] => []
  | c :: rest => if c = '/' then [c] else c :: upToSlash rest

/-- Deduplicate a list keeping the first occurrence of each element. -/
def dedupFirst (l : List Str) : List Str :=
  l.foldl (fun acc x => if x ∈ acc then acc else acc ++ [x]) []

/-- Modelled from the spec (section 6): one page of an S3 `list_objects`
response with delimiter `/` — keys under the prefix with no further
delimiter become `Contents`, the others are grouped into `CommonPrefixes`
up to their next delimiter. -/
def listDelimited (keys : List Str) (pre : Str) : Page :=
  let under := keys.filter (fun k => pyStartswith k pre)
  { contents := under.filter (fun k => !(k.drop pre.length).contains '/'),
    commonPrefixes :=
      dedupFirst
        ((under.filter (fun k => (k.drop pre.length).contains '/')).map
          (fun k => pre ++ upToSlash (k.drop pre.length))) }

/-- Modelled from the spec (section 6): an honest in-memory instantiation of
the boto3 client over a `Bucket`.  Reads of a missing key fail with a
not-found `ClientError`; `put_object` replaces the key's binding; the
unpaginated `list_objects` response carries a `Contents` entry exactly when
the bucket is non-empty; the paginator yields one delimiter-grouped page. -/
def bucketConn : Conn Bucket where
  get_object b k :=
    match lookupKey b k with
    | some o => Except.ok o.body
    | none => Except.error ⟨"404".data, "An error occurred (404): Not Found".data⟩
  put_object b k body _ct := Except.ok ((k, ⟨body, 0⟩) :: b)
  head_object b k :=
    match lookupKey b k with
    | some o => Except.ok ⟨o.body.length, o.lastModified⟩
    | none => Except.error ⟨"404".data, "An error occurred (404): Not Found".data⟩
  delete_object b k := Except.ok (b.filter (fun p => p.1 ≠ k))
  list_objects b :=
    Except.ok ⟨if b.isEmpty then none else some (b.map (fun p => p.1))⟩
  list_objects_pages b pre := Except.ok [listDelimited (b.map (fun p => p.1)) pre]

/-- A permission-denied backend error, not of the not-found class. -/
def err403 : ClientError := ⟨"403".data, "An error occurred (403): Forbidden".data⟩

/-- A transient server-side backend error. -/
def err500 : ClientError := ⟨"500".data, "An error occurred (500): ServiceError".data⟩

/-- A backend whose object operations all fail with the non-not-found
permission error `err403` and whose bucket listing is empty. -/
def connHead403 : Conn Unit where
  get_object _ _ := Except.error err403
  put_object _ _ _ _ := Except.error err403
  head_object _ _ := Except.error err403
  delete_object _ _ := Except.error err403
  list_objects _ := Except.ok ⟨none⟩
  list_objects_pages _ _ := Except.ok []

/-- A backend whose listing operations fail with `err500` while the object
operations succeed trivially. -/
def connListFails : Conn Unit where
  get_object _ _ := Except.ok []
  put_object _ _ _ _ := Except.ok ()
  head_object _ _ := Except.ok ⟨0, 0⟩
  delete_object _ _ := Except.ok ()
  list_objects _ := Except.error err500
  list_objects_pages _ _ := Except.error err500

/-- A backend whose `put_object` fails with `err500`. -/
def connPutFails : Conn Unit where
  get_object _ _ := Except.ok []
  put_object _ _ _ _ := Except.error err500
  head_object _ _ := Except.ok ⟨0, 0⟩
  delete_object _ _ := Except.ok ()
  list_objects _ := Except.ok ⟨none⟩
  list_objects_pages _ _ := Except.ok []

/-- A character is plain for quote `q` when `pyReprEscape` keeps it as-is:
printable, not the backslash and not `q`. -/
def plainChar (q : Char) (c : Char) : Bool :=
  32 ≤ c.toNat && c.toNat ≠ 127 && c ≠ '\\' && c ≠ q

/-- A path is plain when Python's `repr` renders it between two quotes with
no escaping, so the path itself appears verbatim in the repr. -/
def plainStr (s : Str) : Bool :=
  s.all (plainChar (pyReprQuote s))

/-- Appending the separator produces a separator-terminated string. -/
theorem pyEndswith_append_slash (s : Str) : pyEndswith (s ++ slash) slash = true := by
  simp only [pyEndswith, decide_eq_true_eq]
  exact ⟨s, rfl⟩

/-- Two units of fuel are enough to run `S3Storage.exists` to completion:
the single recursive call happens on a separator-terminated name, which the
non-recursive branch handles. -/
theorem exists_eq_existsFuel (c : Conn σ) (s : σ) (name : Str) (fuel : Nat)
    (h : 2 ≤ fuel) :
    existsFuel c s fuel name = some (S3Storage.exists c s name) := by
  obtain ⟨n, rfl⟩ : ∃ n, fuel = n + 1 + 1 := ⟨fuel - 2, by omega⟩
  rw [S3Storage.exists, existsFuel]
  by_cases hend : pyEndswith name slash = true
  · simp only [hend, if_true]
    cases hls : c.list_objects s <;> simp
  · simp only [hend, if_false, Bool.false_eq_true]
    cases hm : S3Storage.meta c s name with
    | ok m => simp
    | error e =>
      cases e with
      | s3Error msg =>
        rw [S3Storage.exists, existsFuel]
        simp only [pyEndswith_append_slash, if_true]
        cases hls : c.list_objects s <;> simp
      | valueError msg => simp
      | clientError e2 => simp

/-- A plain character is kept verbatim by Python's repr escaping. -/
theorem pyReprEscape_plain (q c : Char) (h : plainChar q c = true) :
    pyReprEscape q c = [c] := by
  simp only [plainChar, Bool.and_eq_true, decide_eq_true_eq] at h
  obtain ⟨⟨⟨h32, h127⟩, hbs⟩, hq⟩ := h
  have h10 : ¬c = Char.ofNat 10 := by
    intro he; subst he; exact absurd h32 (by decide)
  have h13 : ¬c = Char.ofNat 13 := by
    intro he; subst he; exact absurd h32 (by decide)
  have h9 : ¬c = Char.ofNat 9 := by
    intro he; subst he; exact absurd h32 (by decide)
  have hctl : ¬(c.toNat < 32 ∨ c.toNat = 127) := by omega
  simp [pyReprEscape, hbs, hq, h10, h13, h9, hctl]

/-- Escaping a fully plain string changes nothing. -/
theorem flatMap_pyReprEscape_plain (q : Char) (s : Str) (h : s.all (plainChar q) = true) :
    s.flatMap (pyReprEscape q) = s := by
  induction s with
  | nil => rfl
  | cons c cs ih =>
    simp only [List.all_cons, Bool.and_eq_true] at h
    simp [List.flatMap_cons, pyReprEscape_plain _ _ h.1, ih h.2]

/-- The repr of a plain string is the string between two quote characters. -/
theorem pyRepr_plain (s : Str) (h : plainStr s = true) :
    pyRepr s = pyReprQuote s :: s ++ [pyReprQuote s] := by
  unfold plainStr at h
  show pyReprQuote s :: s.flatMap (pyReprEscape (pyReprQuote s)) ++ [pyReprQuote s]
      = pyReprQuote s :: s ++ [pyReprQuote s]
  rw [flatMap_pyReprEscape_plain _ _ h]

/-- C1: saving any binary payload (including the empty one) under a path and
then opening that path in mode `rb` yields byte-identical content: `_save`
stores the payload under the mapped key with the honest backend and `_open`
reads back exactly those bytes. -/
theorem save_open_roundtrip (b : Bucket) (name : Str) (payload : List Nat) :
    ∃ b2 : Bucket,
      (S3Storage._save bucketConn b name (FileContent.binary payload)).result
        = Except.ok (b2, name) ∧
      S3Storage._open bucketConn b2 name rbMode = Except.ok payload := by
  refine ⟨(S3Storage.getKeyName name, ⟨payload, 0⟩) :: b, ?_, ?_⟩
  · simp [S3Storage._save, bucketConn]
  · simp [S3Storage._open, bucketConn, wrapErrors, liftClient, lookupKey]

/-- C2: for every separator-terminated path, `exists` issues the unscoped
`list_objects` call and answers whether the bucket holds any object at all,
so the answer is `!b.isEmpty` regardless of the path, and any two
separator-terminated paths get the same answer. -/
theorem exists_dir_probe_bucket_wide (b : Bucket) (name : Str)
    (h : pyEndswith name slash = true) :
    S3Storage.exists bucketConn b name = Except.ok (!b.isEmpty) ∧
    ∀ name2, pyEndswith name2 slash = true →
      S3Storage.exists bucketConn b name2 = S3Storage.exists bucketConn b name := by
  have key : ∀ nm, pyEndswith nm slash = true →
      S3Storage.exists bucketConn b nm = Except.ok (!b.isEmpty) := by
    intro nm hnm
    rw [S3Storage.exists]
    simp only [hnm, if_true, bucketConn]
    cases b <;> simp
  exact ⟨key name h, fun n2 h2 => (key n2 h2).trans (key name h).symm⟩

/-- C2 witness: with one object stored anywhere, `exists` affirms a wholly
unrelated separator-terminated path, and denies it on the empty bucket. -/
theorem exists_dir_probe_bucket_wide_witness :
    S3Storage.exists bucketConn [("y".data, ⟨[], 0⟩)] "any/nonexistent/dir/".data
      = Except.ok true ∧
    S3Storage.exists bucketConn ([] : Bucket) "any/nonexistent/dir/".data
      = Except.ok false := by
  constructor
  · exact (exists_dir_probe_bucket_wide [("y".data, ⟨[], 0⟩)]
      "any/nonexistent/dir/".data (by decide)).1
  · exact (exists_dir_probe_bucket_wide ([] : Bucket)
      "any/nonexistent/dir/".data (by decide)).1

/-- C10: `S3Storage.exists` terminates with recursion depth at most one:
two stack frames of fuel always suffice, because the single recursive call
appends the separator and separator-terminated names take the non-recursive
directory-probe branch. -/
theorem exists_terminates_depth_le_one (c : Conn σ) (s : σ) (name : Str)
    (fuel : Nat) (h : 2 ≤ fuel) :
    existsFuel c s fuel name = some (S3Storage.exists c s name) :=
  exists_eq_existsFuel c s name fuel h

/-- C10 witness: two units of fuel complete the call on a concrete missing
path over the empty bucket. -/
theorem exists_terminates_depth_le_one_witness :
    existsFuel bucketConn ([] : Bucket) 2 "missing.txt".data
      = some (S3Storage.exists bucketConn ([] : Bucket) "missing.txt".data) :=
  exists_terminates_depth_le_one bucketConn ([] : Bucket) "missing.txt".data 2
    (by decide)

/-- C3 counterexample: against a backend whose `head_object` fails with the
permission error `err403` — a storage error that is not of the not-found
class — `exists "f"` does not propagate the error as the claim requires: the
`except S3Error` clause catches every `S3Error`, falls into the directory
probe, and returns `False`. -/
theorem exists_swallows_forbidden_meta_error :
    S3Storage.exists connHead403 () "f".data = Except.ok false ∧
    ∀ e : PyErr, S3Storage.exists connHead403 () "f".data ≠ Except.error e := by
  have h2 := exists_eq_existsFuel connHead403 () "f".data 2 (by decide)
  have h3 : existsFuel connHead403 () 2 "f".data = some (Except.ok false) := by decide
  rw [h3] at h2
  have h1 := Option.some.inj h2
  exact ⟨h1.symm, fun e he => by rw [he] at h1; exact Except.noConfusion h1⟩

/-- C3 (amended): for a path not ending with the separator, `exists` returns
`True` when `meta` succeeds, and recurses into the directory probe whenever
`meta` fails with an `S3Error` of any class — not-found or otherwise; no
storage error raised by `meta` propagates to the caller. -/
theorem exists_file_branch_amended (c : Conn σ) (s : σ) (name : Str)
    (hend : pyEndswith name slash = false) :
    (∀ m, S3Storage.meta c s name = Except.ok m →
      S3Storage.exists c s name = Except.ok true) ∧
    (∀ msg, S3Storage.meta c s name = Except.error (PyErr.s3Error msg) →
      S3Storage.exists c s name = S3Storage.exists c s (name ++ slash)) := by
  constructor
  · intro m hm
    rw [S3Storage.exists]
    simp [hend, hm]
  · intro msg hm
    rw [S3Storage.exists]
    simp [hend, hm]

/-- C3 witness: `meta` succeeding on a stored object makes `exists` answer
`True`, and a forbidden `meta` diverts the same call into the directory
probe. -/
theorem exists_file_branch_amended_witness :
    S3Storage.exists bucketConn [("f".data, ⟨[], 0⟩)] "f".data = Except.ok true ∧
    S3Storage.exists connHead403 () "g".data
      = S3Storage.exists connHead403 () ("g".data ++ slash) := by
  constructor
  · exact (exists_file_branch_amended bucketConn [("f".data, ⟨[], 0⟩)] "f".data
      (by decide)).1 ⟨0, 0⟩ (by decide)
  · exact (exists_file_branch_amended connHead403 () "g".data (by decide)).2
      (wrapMsg "g".data err403) (by decide)

/-- C5: `_open` with any mode other than `rb` fails with the `ValueError`
raised before the backend is consulted, so the outcome is one fixed error
independent of the backend — zero network calls are issued. -/
theorem open_non_rb_mode_value_error (σ σ2 : Type) (c : Conn σ) (s : σ)
    (c2 : Conn σ2) (s2 : σ2) (name mode : Str) (h : mode ≠ rbMode) :
    S3Storage._open c s name mode
      = Except.error
          (PyErr.valueError "S3 files can only be opened in read-only mode".data) ∧
    S3Storage._open c s name mode = S3Storage._open c2 s2 name mode := by
  have key : ∀ (τ : Type) (cc : Conn τ) (ss : τ),
      S3Storage._open cc ss name mode
        = Except.error
            (PyErr.valueError "S3 files can only be opened in read-only mode".data) := by
    intro τ cc ss
    unfold S3Storage._open
    rw [if_pos h]
    rfl
  exact ⟨key σ c s, (key σ c s).trans (key σ2 c2 s2).symm⟩

/-- C5 witness: opening in write mode against the honest backend fails with
the `ValueError`, identically to the all-failing backend. -/
theorem open_non_rb_mode_value_error_witness :
    S3Storage._open bucketConn ([] : Bucket) "f".data "w".data
      = Except.error
          (PyErr.valueError "S3 files can only be opened in read-only mode".data) ∧
    S3Storage._open bucketConn ([] : Bucket) "f".data "w".data
      = S3Storage._open connHead403 () "f".data "w".data :=
  open_non_rb_mode_value_error Bucket Unit bucketConn [] connHead403 ()
    "f".data "w".data (by decide)

/-- C7 counterexample: `toKey` is not idempotent on every input — on `"//a"`
it first yields `"/a"` and a second application strips again, yielding
`"a"`. -/
theorem getKeyName_not_idempotent_double_slash :
    S3Storage.getKeyName (S3Storage.getKeyName "//a".data)
      ≠ S3Storage.getKeyName "//a".data := by decide

/-- C7 (amended): `toKey` removes exactly one leading separator when the
input starts with one, returns every other string unchanged, and satisfies
`toKey(toKey(x)) = toKey(x)` for every `x` that does not start with two
separators. -/
theorem getKeyName_amended (x : Str) :
    (pyStartswith x slash = true → S3Storage.getKeyName x = x.drop 1) ∧
    (pyStartswith x slash = false → S3Storage.getKeyName x = x) ∧
    (pyStartswith x (slash ++ slash) = false →
      S3Storage.getKeyName (S3Storage.getKeyName x) = S3Storage.getKeyName x) := by
  refine ⟨fun h => by simp [S3Storage.getKeyName, h],
          fun h => by simp [S3Storage.getKeyName, h], fun h => ?_⟩
  by_cases hx : pyStartswith x slash = true
  · have hpre : slash <+: x := by simpa [pyStartswith] using hx
    obtain ⟨t, rfl⟩ := hpre
    have h1 : S3Storage.getKeyName (slash ++ t) = t := by
      have hst : pyStartswith (slash ++ t) slash = true := by
        simp only [pyStartswith, decide_eq_true_eq]
        exact ⟨t, rfl⟩
      unfold S3Storage.getKeyName
      rw [hst]
      simp [slash]
    rw [h1]
    have ht : pyStartswith t slash = false := by
      cases htc : pyStartswith t slash with
      | false => rfl
      | true =>
        exfalso
        have hpt : slash <+: t := by simpa [pyStartswith] using htc
        obtain ⟨u, rfl⟩ := hpt
        have hdd : pyStartswith (slash ++ (slash ++ u)) (slash ++ slash) = true := by
          simp only [pyStartswith, decide_eq_true_eq]
          exact ⟨u, by simp⟩
        rw [hdd] at h
        exact Bool.noConfusion h
    simp [S3Storage.getKeyName, ht]
  · simp at hx
    simp [S3Storage.getKeyName, hx]

/-- C7 witness: the amended idempotence applied to the concrete single-slash
path. -/
theorem getKeyName_amended_witness :
    S3Storage.getKeyName (S3Storage.getKeyName "/a".data)
      = S3Storage.getKeyName "/a".data :=
  (getKeyName_amended "/a".data).2.2 (by decide)

/-- C4 counterexample: `listdir` is not decorated with `_wrap_errors`, so a
`ClientError` raised by the paginated listing surfaces raw — the failure is
not converted to an `S3Error` — contradicting the claim that every
backend-contacting operation surfaces failures as `StorageError`. -/
theorem listdir_propagates_raw_client_error :
    S3Storage.listdir connListFails () "x".data
      = Except.error (PyErr.clientError err500) ∧
    ∀ msg, S3Storage.listdir connListFails () "x".data
      ≠ Except.error (PyErr.s3Error msg) := by
  have h1 : S3Storage.listdir connListFails () "x".data
      = Except.error (PyErr.clientError err500) := by decide
  exact ⟨h1, fun msg he => by rw [h1] at he; simp at he⟩

/-- C4 (amended): the operations decorated with `_wrap_errors` — `meta` and
through it `size` and the timestamp accessors, `_open` in mode `rb`,
`_save`, and `delete` — surface every backend `ClientError` as an `S3Error`
whose message embeds the repr of the original logical path (verbatim for
paths needing no repr escaping); the undecorated `exists` directory probe
and `listdir` are excluded, as they let `ClientError` escape raw. -/
theorem wrapped_ops_s3error_with_path (σ : Type) (c : Conn σ) (s : σ)
    (name : Str) (e : ClientError) :
    (plainStr name = true → ∃ pre post, wrapMsg name e = pre ++ name ++ post) ∧
    (c.head_object s (S3Storage.getKeyName name) = Except.error e →
      S3Storage.meta c s name = Except.error (PyErr.s3Error (wrapMsg name e)) ∧
      S3Storage.size c s name = Except.error (PyErr.s3Error (wrapMsg name e)) ∧
      S3Storage.modified_time c s name
        = Except.error (PyErr.s3Error (wrapMsg name e)) ∧
      ∀ st, S3Storage.get_modified_time c s st name
        = Except.error (PyErr.s3Error (wrapMsg name e))) ∧
    (c.get_object s (S3Storage.getKeyName name) = Except.error e →
      S3Storage._open c s name rbMode
        = Except.error (PyErr.s3Error (wrapMsg name e))) ∧
    (∀ bs, c.put_object s (S3Storage.getKeyName name) bs (guessContentType name)
        = Except.error e →
      (S3Storage._save c s name (FileContent.binary bs)).result
        = Except.error (PyErr.s3Error (wrapMsg name e))) ∧
    (c.delete_object s (S3Storage.getKeyName name) = Except.error e →
      S3Storage.delete c s name = Except.error (PyErr.s3Error (wrapMsg name e))) := by
  refine ⟨fun hp => ?_, fun hh => ?_, fun hg => ?_, fun bs hp2 => ?_, fun hd => ?_⟩
  · refine ⟨"S3Storage error at ".data ++ [pyReprQuote name],
      [pyReprQuote name] ++ ": ".data ++ forceText e, ?_⟩
    simp [wrapMsg, pyRepr_plain name hp]
  · have hm : S3Storage.meta c s name
        = Except.error (PyErr.s3Error (wrapMsg name e)) := by
      simp [S3Storage.meta, wrapErrors, liftClient, hh]
    exact ⟨hm, by simp [S3Storage.size, hm],
      by simp [S3Storage.modified_time, hm],
      fun st => by simp [S3Storage.get_modified_time, hm]⟩
  · simp [S3Storage._open, wrapErrors, liftClient, hg]
  · simp [S3Storage._save, hp2]
  · simp [S3Storage.delete, wrapErrors, liftClient, hd]

/-- C4 witness: the wrapped operations applied to a plain concrete path over
the all-failing backend, each surfacing the `S3Error` that embeds the path. -/
theorem wrapped_ops_s3error_with_path_witness :
    (∃ pre post, wrapMsg "file.txt".data err403 = pre ++ "file.txt".data ++ post) ∧
    S3Storage.meta connHead403 () "file.txt".data
      = Except.error (PyErr.s3Error (wrapMsg "file.txt".data err403)) ∧
    S3Storage._open connHead403 () "file.txt".data rbMode
      = Except.error (PyErr.s3Error (wrapMsg "file.txt".data err403)) ∧
    (S3Storage._save connHead403 () "file.txt".data (FileContent.binary [7])).result
      = Except.error (PyErr.s3Error (wrapMsg "file.txt".data err403)) ∧
    S3Storage.delete connHead403 () "file.txt".data
      = Except.error (PyErr.s3Error (wrapMsg "file.txt".data err403)) := by
  have h := wrapped_ops_s3error_with_path Unit connHead403 () "file.txt".data err403
  exact ⟨h.1 (by decide), (h.2.1 (by decide)).1, h.2.2.1 (by decide),
    h.2.2.2.1 [7] (by decide), h.2.2.2.2 (by decide)⟩

/-- C6 counterexample: saving textual content against a backend whose
`put_object` fails creates one spooled temporary buffer and leaves it open —
the close loop after the upload is never reached because the exception
propagates first — contradicting the claimed cleanup on every exit path. -/
theorem save_leaves_temp_open_on_failed_put :
    (S3Storage._save connPutFails () "x.txt".data
      (FileContent.text "hi".data)).tempsCreated = 1 ∧
    (S3Storage._save connPutFails () "x.txt".data
      (FileContent.text "hi".data)).tempsLeftOpen = 1 ∧
    (S3Storage._save connPutFails () "x.txt".data
      (FileContent.text "hi".data)).result
      = Except.error (PyErr.s3Error (wrapMsg "x.txt".data err500)) := by
  refine ⟨by decide, by decide, by decide⟩

/-- C6 (amended): for textual content, exactly one temporary buffer is
created; it is closed before `save` returns when `put_object` succeeds, and
left open when `put_object` raises — the close loop runs only on the
success path. -/
theorem save_temp_cleanup_amended (σ : Type) (c : Conn σ) (s : σ)
    (name : Str) (t : Str) :
    (S3Storage._save c s name (FileContent.text t)).tempsCreated = 1 ∧
    (∀ x, (S3Storage._save c s name (FileContent.text t)).result = Except.ok x →
      (S3Storage._save c s name (FileContent.text t)).tempsLeftOpen = 0) ∧
    (∀ e, (S3Storage._save c s name (FileContent.text t)).result = Except.error e →
      (S3Storage._save c s name (FileContent.text t)).tempsLeftOpen = 1) := by
  unfold S3Storage._save
  cases hp : c.put_object s (S3Storage.getKeyName name) (encodeUtf8 t)
      (guessContentType name) <;> simp [hp]

/-- C6 witness: the successful upload closes the buffer, the failing upload
leaves it open. -/
theorem save_temp_cleanup_amended_witness :
    (S3Storage._save bucketConn [] "x.txt".data
      (FileContent.text "hi".data)).tempsLeftOpen = 0 ∧
    (S3Storage._save connPutFails () "y.txt".data
      (FileContent.text "hi".data)).tempsLeftOpen = 1 := by
  constructor
  · exact (save_temp_cleanup_amended Bucket bucketConn [] "x.txt".data "hi".data).2.1
      (([("x.txt".data, ⟨[104, 105], 0⟩)] : Bucket), "x.txt".data) (by decide)
  · exact (save_temp_cleanup_amended Unit connPutFails () "y.txt".data "hi".data).2.2
      (PyErr.s3Error (wrapMsg "y.txt".data err500)) (by decide)

/-- C8: `listdir "."` maps to the bucket root and, on a bucket holding
exactly the keys `a.txt` and `b/c.txt`, the delimiter-grouped page turns the
`Contents` entry into the file `a.txt` and the `CommonPrefixes` entry into
the directory `b`, each relativized; `listdir "b"` scopes the listing to the
prefix `b/` and returns the relativized file `c.txt`. -/
theorem listdir_root_example (o1 o2 : StoredObject) :
    S3Storage.listdir bucketConn [("a.txt".data, o1), ("b/c.txt".data, o2)] ".".data
      = Except.ok (["b".data], ["a.txt".data]) ∧
    S3Storage.listdir bucketConn [("a.txt".data, o1), ("b/c.txt".data, o2)] "b".data
      = Except.ok ([], ["c.txt".data]) := by
  constructor <;> rfl

/-- C9 counterexample: with `USE_TZ` off and a current default timezone two
hours east of UTC, `get_modified_time` of an object last modified at the
epoch returns the naive local reading 120, not the naive UTC reading 0 the
claim requires — `make_naive(timestamp)` converts to the current timezone,
not to UTC. -/
theorem get_modified_time_naive_local_not_utc :
    S3Storage.get_modified_time bucketConn [("f".data, ⟨[], 0⟩)] ⟨false, 120⟩ "f".data
      = Except.ok (PyDatetime.naive 120) ∧
    PyDatetime.naive 120 ≠ PyDatetime.naive (make_naive 0 0) := by
  exact ⟨by decide, by decide⟩

/-- C9 (amended): `get_modified_time` returns the backend's UTC-aware
timestamp unchanged when `USE_TZ` holds and otherwise converts it to a naive
reading in the application's current default timezone (naive local time, not
naive UTC); the legacy `modified_time` always returns the naive UTC
reading. -/
theorem modified_time_accessors_amended (σ : Type) (c : Conn σ) (s : σ)
    (st : TzSettings) (name : Str) (m : MetaData)
    (h : S3Storage.meta c s name = Except.ok m) :
    S3Storage.get_modified_time c s st name
      = Except.ok (if st.USE_TZ then PyDatetime.aware m.lastModified
          else PyDatetime.naive (m.lastModified + st.currentTzOffset)) ∧
    S3Storage.modified_time c s name
      = Except.ok (PyDatetime.naive m.lastModified) := by
  constructor <;>
    simp [S3Storage.get_modified_time, S3Storage.modified_time, make_naive, h]

/-- C9 witness: an object last modified at instant 5 with `USE_TZ` off and a
+60 minute timezone reads 65 naive from `get_modified_time` and 5 naive UTC
from `modified_time`. -/
theorem modified_time_accessors_amended_witness :
    S3Storage.get_modified_time bucketConn [("f".data, ⟨[], 5⟩)] ⟨false, 60⟩ "f".data
      = Except.ok (PyDatetime.naive 65) ∧
    S3Storage.modified_time bucketConn [("f".data, ⟨[], 5⟩)] "f".data
      = Except.ok (PyDatetime.naive 5) := by
  have h := modified_time_accessors_amended Bucket bucketConn
    [("f".data, ⟨[], 5⟩)] ⟨false, 60⟩ "f".data ⟨0, 5⟩ (by decide)
  refine ⟨?_, h.2⟩
  rw [h.1]
  decide
